import Mathlib

/-!
Shallow embedding of the TrickHLA Python configuration layer and of the
format_code.py utility, together with theorems settling the specification
claims about them.

Sources embedded:
- src/Modified_data/SpaceFOM/SpaceFOMPhysicalEntityObject.py
- src/Modified_data/JEOD/JEODRefFrameTreeObject.py
- src/sims/SpaceFOM/SIM_wheelbot/RUN_wb1/input.py
- src/scripts/format_code.py

Repository code that the claims depend on but that is not under src/
(Modified_data/TrickHLA/TrickHLAObjectConfig.py,
Modified_data/TrickHLA/TrickHLAAttributeConfig.py,
Modified_data/SpaceFOM/SpaceFOMRefFrameObject.py,
Modified_data/SpaceFOM/SpaceFOMFederateConfig.py and
scripts/trickhla_message.py) is modelled from the specification; each such
definition carries a doc comment starting with: Modelled from the spec.
-/

/-- Wire-encoding choices appearing in the attribute configuration call
sites (the Trick enumeration constants ENCODING_UNICODE_STRING,
ENCODING_LITTLE_ENDIAN and ENCODING_NONE are external; they are modelled
as an enumeration). -/
inductive Encoding where
  | encodingNone
  | littleEndian
  | unicodeString
deriving DecidableEq

/-- Update-cadence choices appearing in the attribute configuration call
sites (the Trick constants CONFIG_INITIALIZE, CONFIG_CYCLIC and their sum
are external; the three combinations used by the spec data model are
modelled as an enumeration). -/
inductive UpdatePolicy where
  | initOnly
  | cyclicOnly
  | initAndCyclic
deriving DecidableEq

/-- Error taxonomy of the mapping registry, from section 7 of the spec. -/
inductive RegistryError where
  | configurationError (msg : String)
  | duplicateAttributeError (nm : String)
  | danglingParentError (parent : String)
deriving DecidableEq

/-- Attribute descriptor, mirroring the positional arguments of the
TrickHLAAttributeConfig constructor as used at every call site in src/:
FOM name, trick data name, publish, subscribe, locally owned, update
configuration, rti encoding. -/
structure TrickHLAAttributeConfig where
  FOM_name : String
  trick_name : String
  publish : Bool
  subscribe : Bool
  locally_owned : Bool
  config : UpdatePolicy
  rti_encoding : Encoding
deriving DecidableEq

/-- Object descriptor assembled by the configuration layer. -/
structure TrickHLAObjectConfig where
  hla_create : Bool
  hla_instance_name : String
  hla_FOM_name : String
  attributes : List TrickHLAAttributeConfig
deriving DecidableEq

/-- Modelled from the spec: the base class constructor
TrickHLAObjectConfig.__init__ lives in
Modified_data/TrickHLA/TrickHLAObjectConfig.py, which is not under src/.
Per the spec (operation describe_object, section 4.1, and section 7), it
records the create flag, the instance name, the FOM type name and an empty
attribute list, and rejects with a ConfigurationError when the create flag
is set and the instance name is empty. -/
def TrickHLAObjectConfig.init (create : Bool) (instance_name FOM_name : String) :
    Except RegistryError TrickHLAObjectConfig :=
  if create && instance_name == "" then
    Except.error (RegistryError.configurationError
      "instance_name required when create_flag is true")
  else
    Except.ok { hla_create := create, hla_instance_name := instance_name,
                hla_FOM_name := FOM_name, attributes := [] }

/-- Modelled from the spec: TrickHLAObjectConfig.add_attribute lives in
Modified_data/TrickHLA/TrickHLAObjectConfig.py, which is not under src/.
Per the spec (operation add_attribute, section 4.1) it fails with a
DuplicateAttributeError when the logical name already occurs in the
attribute list of this object, and otherwise appends the new attribute
descriptor to the list. -/
def TrickHLAObjectConfig.add_attribute (obj : TrickHLAObjectConfig)
    (attr : TrickHLAAttributeConfig) : Except RegistryError TrickHLAObjectConfig :=
  if obj.attributes.any fun a => a.FOM_name == attr.FOM_name then
    Except.error (RegistryError.duplicateAttributeError attr.FOM_name)
  else
    Except.ok { obj with attributes := obj.attributes ++ [attr] }

/-- Backing simulation instance, reduced to the one field this layer
touches: the self-reported entity name. -/
structure SimInstance where
  name : String
deriving DecidableEq

/-- Embedding of entity_S_define_instance.set_name as called by
SpaceFOMPhysicalEntityObject.__init__: writes the name field on the
backing simulation instance. -/
def SimInstance.set_name (inst : SimInstance) (nm : String) : SimInstance :=
  { inst with name := nm }

/-- Embedding of SpaceFOMPhysicalEntityObject.add_attributes
(src/Modified_data/SpaceFOM/SpaceFOMPhysicalEntityObject.py lines 81-185):
nine attributes are added in order, each passing hla_create for publish,
its negation for subscribe, hla_create for locally owned, the
initialize-and-cyclic configuration, and the per-attribute encoding.
The argument s embeds self.trick_entity_sim_obj_name. -/
def SpaceFOMPhysicalEntityObject.add_attributes (s : String)
    (obj : TrickHLAObjectConfig) : Except RegistryError TrickHLAObjectConfig := do
  let obj ← obj.add_attribute ⟨"name", s ++ ".pe_packing_data.name",
    obj.hla_create, !obj.hla_create, obj.hla_create,
    UpdatePolicy.initAndCyclic, Encoding.unicodeString⟩
  let obj ← obj.add_attribute ⟨"type", s ++ ".pe_packing_data.type",
    obj.hla_create, !obj.hla_create, obj.hla_create,
    UpdatePolicy.initAndCyclic, Encoding.unicodeString⟩
  let obj ← obj.add_attribute ⟨"status", s ++ ".pe_packing_data.status",
    obj.hla_create, !obj.hla_create, obj.hla_create,
    UpdatePolicy.initAndCyclic, Encoding.unicodeString⟩
  let obj ← obj.add_attribute ⟨"parent_reference_frame", s ++ ".pe_packing_data.parent_frame",
    obj.hla_create, !obj.hla_create, obj.hla_create,
    UpdatePolicy.initAndCyclic, Encoding.unicodeString⟩
  let obj ← obj.add_attribute ⟨"state", s ++ ".stc_encoder.buffer",
    obj.hla_create, !obj.hla_create, obj.hla_create,
    UpdatePolicy.initAndCyclic, Encoding.encodingNone⟩
  let obj ← obj.add_attribute ⟨"acceleration", s ++ ".pe_packing_data.accel",
    obj.hla_create, !obj.hla_create, obj.hla_create,
    UpdatePolicy.initAndCyclic, Encoding.littleEndian⟩
  let obj ← obj.add_attribute ⟨"rotational_acceleration", s ++ ".pe_packing_data.ang_accel",
    obj.hla_create, !obj.hla_create, obj.hla_create,
    UpdatePolicy.initAndCyclic, Encoding.littleEndian⟩
  let obj ← obj.add_attribute ⟨"center_of_mass", s ++ ".pe_packing_data.cm",
    obj.hla_create, !obj.hla_create, obj.hla_create,
    UpdatePolicy.initAndCyclic, Encoding.littleEndian⟩
  obj.add_attribute ⟨"body_wrt_structural", s ++ ".quat_encoder.buffer",
    obj.hla_create, !obj.hla_create, obj.hla_create,
    UpdatePolicy.initAndCyclic, Encoding.encodingNone⟩

/-- Embedding of SpaceFOMPhysicalEntityObject.__init__
(src/Modified_data/SpaceFOM/SpaceFOMPhysicalEntityObject.py lines 28-71):
writes the instance name on the backing S_define instance when the create
flag is set and clears it to the empty string otherwise, then runs the
base class constructor with the fixed FOM name PhysicalEntity and builds
the attribute list. The first component of the result is the backing
instance after the name side effect; the second is the descriptor or the
construction error. -/
def SpaceFOMPhysicalEntityObject.init (create_entity_object : Bool)
    (entity_instance_name : String) (entity_S_define_instance : SimInstance)
    (entity_S_define_instance_name : String) :
    SimInstance × Except RegistryError TrickHLAObjectConfig :=
  let inst :=
    if create_entity_object then
      entity_S_define_instance.set_name entity_instance_name
    else
      entity_S_define_instance.set_name ""
  let result := do
    let obj ← TrickHLAObjectConfig.init create_entity_object entity_instance_name
      "PhysicalEntity"
    SpaceFOMPhysicalEntityObject.add_attributes entity_S_define_instance_name obj
  (inst, result)

/-- C1: for every construction of a physical-entity object descriptor with
create_flag true, the backing simulation instance name is set to exactly
the supplied instance name; for every construction with create_flag false,
the backing instance name is set to the empty string. -/
theorem physicalEntity_init_backing_name (instName simObjName : String)
    (inst : SimInstance) :
    ((SpaceFOMPhysicalEntityObject.init true instName inst simObjName).1).name
        = instName ∧
    ((SpaceFOMPhysicalEntityObject.init false instName inst simObjName).1).name
        = "" :=
  ⟨rfl, rfl⟩

/-- C4: constructing a physical-entity object descriptor with create_flag
true and an empty instance name fails with a ConfigurationError at
descriptor-construction time. -/
theorem physicalEntity_init_empty_name_rejected (inst : SimInstance)
    (simObjName : String) :
    ∃ msg, (SpaceFOMPhysicalEntityObject.init true "" inst simObjName).2
        = Except.error (RegistryError.configurationError msg) :=
  ⟨_, rfl⟩

/-- C3: every attribute descriptor built by the physical-entity
attribute-list construction carries publish equal to the create flag of
the object and subscribe equal to its logical negation, and exactly nine
attributes are added. -/
theorem physicalEntity_attributes_publish_policy (c : Bool) (i f s : String) :
    ∃ obj, SpaceFOMPhysicalEntityObject.add_attributes s ⟨c, i, f, []⟩
        = Except.ok obj ∧
      obj.attributes.length = 9 ∧
      ∀ a ∈ obj.attributes, a.publish = c ∧ a.subscribe = (!c) := by
  cases c <;>
    refine ⟨_, rfl, rfl, ?_⟩ <;>
    · intro a ha
      simp only [List.append_eq, List.nil_append, List.append_assoc,
        List.singleton_append, List.cons_append, List.mem_cons,
        List.not_mem_nil, or_false] at ha
      rcases ha with rfl | rfl | rfl | rfl | rfl | rfl | rfl | rfl | rfl <;>
        exact ⟨rfl, rfl⟩

/-- C5: calling add_attribute a second time with the same logical name on
the same object descriptor fails with a DuplicateAttributeError, and the
attribute added by the first call is still present in the attribute list
of the descriptor produced by the first call. -/
theorem add_attribute_duplicate_rejected (obj obj1 : TrickHLAObjectConfig)
    (a b : TrickHLAAttributeConfig)
    (h : obj.add_attribute a = Except.ok obj1)
    (hname : b.FOM_name = a.FOM_name) :
    obj1.add_attribute b
        = Except.error (RegistryError.duplicateAttributeError b.FOM_name) ∧
      a ∈ obj1.attributes := by
  unfold TrickHLAObjectConfig.add_attribute at h
  split at h
  · exact absurd h (by simp)
  · have hobj1 : obj1 = { obj with attributes := obj.attributes ++ [a] } := by
      injection h with h
      exact h.symm
    subst hobj1
    constructor
    · unfold TrickHLAObjectConfig.add_attribute
      rw [if_pos]
      simp [hname]
    · simp

/-- The wheelbot object descriptor of
src/sims/SpaceFOM/SIM_wheelbot/RUN_wb1/input.py line 192: created with
create flag true, instance name Wheelbot_hla_entity and FOM name
PhysicalEntity. -/
def wheelbotObj : TrickHLAObjectConfig :=
  ⟨true, "Wheelbot_hla_entity", "PhysicalEntity", []⟩

/-- The wheelbot state attribute of
src/sims/SpaceFOM/SIM_wheelbot/RUN_wb1/input.py line 194: logical name
state, trick name veh.vehicle.position, publish true, subscribe false,
locally owned true, cyclic configuration, little-endian encoding. -/
def wheelbotAtt : TrickHLAAttributeConfig :=
  ⟨"state", "veh.vehicle.position", true, false, true,
    UpdatePolicy.cyclicOnly, Encoding.littleEndian⟩

/-- The wheelbot descriptor after the single add_attribute call of
src/sims/SpaceFOM/SIM_wheelbot/RUN_wb1/input.py line 196. -/
def wheelbotObj1 : TrickHLAObjectConfig :=
  ⟨true, "Wheelbot_hla_entity", "PhysicalEntity", [wheelbotAtt]⟩

/-- C5 witness: the duplicate-attribute theorem instantiated on the
wheelbot descriptor and its state attribute. -/
theorem add_attribute_duplicate_rejected_witness :
    wheelbotObj1.add_attribute wheelbotAtt
        = Except.error (RegistryError.duplicateAttributeError "state") ∧
      wheelbotAtt ∈ wheelbotObj1.attributes :=
  add_attribute_duplicate_rejected wheelbotObj wheelbotObj1
    wheelbotAtt wheelbotAtt rfl rfl

/-- Federate configuration collaborator state: the list of object
descriptors it has received. -/
structure SpaceFOMFederateConfig where
  fed_objects : List TrickHLAObjectConfig

/-- Modelled from the spec: SpaceFOMFederateConfig.add_fed_object (the
register_with_federate operation) lives in
Modified_data/SpaceFOM/SpaceFOMFederateConfig.py, which is not under src/.
Per the spec (section 4.1) it is a pure hand-off forwarding the fully
built descriptor to the federate collaborator unchanged, with no local
state retained beyond what was already built. -/
def SpaceFOMFederateConfig.add_fed_object (fed : SpaceFOMFederateConfig)
    (obj : TrickHLAObjectConfig) : SpaceFOMFederateConfig :=
  ⟨fed.fed_objects ++ [obj]⟩

/-- C7: the wheelbot object descriptor, built with create flag true and
one attribute named state with publish true and subscribe false, is
handed to the federate collaborator unchanged: the collaborator receives
exactly the descriptor field values supplied, with no field normalization
or reordering. -/
theorem wheelbot_descriptor_handed_off_unchanged :
    ∃ obj, wheelbotObj.add_attribute wheelbotAtt = Except.ok obj ∧
      obj.hla_create = true ∧
      obj.hla_instance_name = "Wheelbot_hla_entity" ∧
      obj.hla_FOM_name = "PhysicalEntity" ∧
      obj.attributes = [wheelbotAtt] ∧
      wheelbotAtt.publish = true ∧
      wheelbotAtt.subscribe = false ∧
      ∀ fed : SpaceFOMFederateConfig,
        (fed.add_fed_object obj).fed_objects = fed.fed_objects ++ [obj] :=
  ⟨wheelbotObj1, rfl, rfl, rfl, rfl, rfl, rfl, rfl, fun _ => rfl⟩

/-- Reference-frame descriptor: the frame instance name, the Trick packing
object name, the declared parent frame name (none for the root) and the
create flag, mirroring the arguments of the SpaceFOMRefFrameObject call
sites in src/Modified_data/JEOD/JEODRefFrameTreeObject.py. -/
structure RefFrameDescriptor where
  frame_instance_name : String
  frame_packing_name : String
  parent_frame_name : Option String
  create_flag : Bool
deriving DecidableEq

/-- Embedding of the nine reference-frame descriptors built by
JEODRefFrameTreeObject.__init__
(src/Modified_data/JEOD/JEODRefFrameTreeObject.py lines 62-179), in
construction order. The solar system barycenter frame is set as the root
frame and has no parent; every frame receives the same
create_frame_objects flag. -/
def jeodRefFrameTree (create_frame_objects : Bool) : List RefFrameDescriptor :=
  [ ⟨"SolarSystemBarycentricInertial", "solar_system_barycenter.frame_packing",
      none, create_frame_objects⟩,
    ⟨"SunCentricInertial", "sun_inertial.frame_packing",
      some "SolarSystemBarycentricInertial", create_frame_objects⟩,
    ⟨"EarthMoonBarycentricInertial", "earth_moon_barycenter.frame_packing",
      some "SolarSystemBarycentricInertial", create_frame_objects⟩,
    ⟨"EarthMJ2000Eq", "earth_centered_inertial.frame_packing",
      some "EarthMoonBarycentricInertial", create_frame_objects⟩,
    ⟨"MoonCentricInertial", "moon_centered_inertial.frame_packing",
      some "EarthMoonBarycentricInertial", create_frame_objects⟩,
    ⟨"MarsCentricInertial", "mars_centered_inertial.frame_packing",
      some "SolarSystemBarycentricInertial", create_frame_objects⟩,
    ⟨"EarthCentricFixed", "earth_centered_fixed.frame_packing",
      some "EarthMJ2000Eq", create_frame_objects⟩,
    ⟨"MoonCentricFixed", "moon_centered_fixed.frame_packing",
      some "MoonCentricInertial", create_frame_objects⟩,
    ⟨"MarsCentricFixed", "mars_centered_fixed.frame_packing",
      some "MarsCentricInertial", create_frame_objects⟩ ]

/-- A descriptor with a declared parent resolves uniquely in a set when
exactly one descriptor of the set carries that name as its own frame
instance name and that descriptor is not the child itself. Rootless
descriptors resolve trivially. -/
def resolvesUniquely (frames : List RefFrameDescriptor)
    (d : RefFrameDescriptor) : Bool :=
  match d.parent_frame_name with
  | none => true
  | some p =>
      ((frames.filter fun e => e.frame_instance_name == p).length == 1)
        && (p != d.frame_instance_name)

/-- Parent lookup by frame instance name. -/
def parentOf (frames : List RefFrameDescriptor) (nm : String) : Option String :=
  match frames.find? fun d => d.frame_instance_name == nm with
  | some d => d.parent_frame_name
  | none => none

/-- Fuelled parent chase: nm reaches root by following declared parent
names within the given number of steps. -/
def chasesToRoot (frames : List RefFrameDescriptor) (root : String) :
    Nat → String → Bool
  | 0, nm => nm == root
  | fuel + 1, nm =>
      nm == root ||
        match parentOf frames nm with
        | some p => chasesToRoot frames root fuel p
        | none => false

/-- C2: the reference-frame descriptors assembled for one federation
execution form a tree: the solar system barycenter frame is the only
descriptor without a parent and is the root, every other descriptor has a
declared parent name resolving to exactly one other descriptor of the
set, and every descriptor reaches the root by following parent links. -/
theorem jeodRefFrameTree_forms_tree (create_frame_objects : Bool) :
    ((jeodRefFrameTree create_frame_objects).filter
        fun d => d.parent_frame_name == none).map
          (fun d => d.frame_instance_name)
        = ["SolarSystemBarycentricInertial"] ∧
    (∀ d ∈ jeodRefFrameTree create_frame_objects,
        resolvesUniquely (jeodRefFrameTree create_frame_objects) d = true) ∧
    (∀ d ∈ jeodRefFrameTree create_frame_objects,
        chasesToRoot (jeodRefFrameTree create_frame_objects)
          "SolarSystemBarycentricInertial" 9 d.frame_instance_name = true) := by
  cases create_frame_objects <;> decide

/-- Modelled from the spec: the validation performed when a reference
frame descriptor is built against already registered descriptors
(SpaceFOMRefFrameObject and the tree-assembly checks live in
Modified_data/SpaceFOM/SpaceFOMRefFrameObject.py, which is not under
src/). Per the spec (operation describe_reference_frame, section 4.1, and
the error taxonomy of section 7), building a descriptor whose declared
parent name does not match the FOM name of any already registered
descriptor fails with a DanglingParentError, surfaced at tree-assembly
time; a descriptor without a parent is the root and is accepted. -/
def describe_reference_frame (registry : List RefFrameDescriptor)
    (instName packingName : String) (create : Bool) (parent : Option String) :
    Except RegistryError RefFrameDescriptor :=
  match parent with
  | none => Except.ok ⟨instName, packingName, none, create⟩
  | some p =>
      if registry.any fun d => d.frame_instance_name == p then
        Except.ok ⟨instName, packingName, some p, create⟩
      else
        Except.error (RegistryError.danglingParentError p)

/-- Registry holding only the first two frames of the end-to-end
scenario: the solar system barycenter root and the Sun inertial frame,
both with create flag true. -/
def scenarioEarlyRegistry : List RefFrameDescriptor :=
  [ ⟨"SolarSystemBarycentricInertial", "solar_system_barycenter.frame_packing",
      none, true⟩,
    ⟨"SunCentricInertial", "sun_inertial.frame_packing",
      some "SolarSystemBarycentricInertial", true⟩ ]

/-- The Earth-Moon barycenter frame descriptor of the end-to-end
scenario. -/
def scenarioEmbFrame : RefFrameDescriptor :=
  ⟨"EarthMoonBarycentricInertial", "earth_moon_barycenter.frame_packing",
    some "SolarSystemBarycentricInertial", true⟩

/-- C6: building a reference-frame descriptor whose declared parent name
matches no already registered descriptor fails with a DanglingParentError;
in particular the EarthMJ2000Eq frame naming EarthMoonBarycentricInertial
as parent fails while only the solar system barycenter and Sun frames are
registered, and succeeds once EarthMoonBarycentricInertial is registered
first. -/
theorem describe_reference_frame_dangling_parent :
    (∀ (registry : List RefFrameDescriptor) (instName packingName p : String)
        (create : Bool),
      (∀ d ∈ registry, d.frame_instance_name ≠ p) →
      describe_reference_frame registry instName packingName create (some p)
        = Except.error (RegistryError.danglingParentError p)) ∧
    describe_reference_frame scenarioEarlyRegistry "EarthMJ2000Eq"
        "earth_centered_inertial.frame_packing" true
        (some "EarthMoonBarycentricInertial")
      = Except.error
          (RegistryError.danglingParentError "EarthMoonBarycentricInertial") ∧
    (∃ d, describe_reference_frame (scenarioEarlyRegistry ++ [scenarioEmbFrame])
        "EarthMJ2000Eq" "earth_centered_inertial.frame_packing" true
        (some "EarthMoonBarycentricInertial") = Except.ok d) := by
  refine ⟨?_, rfl, ⟨_, rfl⟩⟩
  intro registry instName packingName p create h
  have hc : (registry.any fun d => d.frame_instance_name == p) = false := by
    rw [Bool.eq_false_iff]
    intro hcon
    rw [List.any_eq_true] at hcon
    obtain ⟨d, hd, hdp⟩ := hcon
    exact h d hd (beq_iff_eq.mp hdp)
  simp [describe_reference_frame, hc]

/-- C6 witness: the dangling-parent theorem instantiated on the empty
registry. -/
theorem describe_reference_frame_dangling_parent_witness :
    describe_reference_frame [] "EarthMJ2000Eq"
        "earth_centered_inertial.frame_packing" true
        (some "EarthMoonBarycentricInertial")
      = Except.error
          (RegistryError.danglingParentError "EarthMoonBarycentricInertial") :=
  describe_reference_frame_dangling_parent.1 [] "EarthMJ2000Eq"
    "earth_centered_inertial.frame_packing" "EarthMoonBarycentricInertial" true
    (by simp)

/-- Abstract filesystem view used by format_code.py: directory test, file
test and directory listing. -/
structure FileSystem where
  isdir : String → Bool
  isfile : String → Bool
  listdir : String → List String

/-- Abstract process environment: os.environ.get returns none exactly when
a variable is unset. -/
structure EnvMap where
  get : String → Option String

/-- Command-line arguments of format_code.py as produced by argparse
(src/scripts/format_code.py lines 26-41): store_true flags are booleans,
value flags are none when absent. -/
structure FormatArgs where
  clean : Bool
  file : Option String
  in_place : Bool
  llvm_bin : Option String
  thla_home : Option String
  test : Bool
  verbose : Bool

/-- Python truthiness of an optional string: an absent flag is None and
falsy, and the empty string is also falsy. -/
def truthy : Option String → Bool
  | none => false
  | some s => !(s == "")

/-- Ways a run of format_code.py can terminate early. failure embeds
TrickHLAMessage.failure; trickhla_message.py is not under src/, and its
behavior is modelled from the spec: any such failure reports an error
message and terminates the process immediately. nameError embeds a Python
NameError on an undefined identifier, indexError a Python IndexError on
an out-of-range list index, and osError an os.chdir into a missing
directory. -/
inductive PyError where
  | failure (msg : String)
  | nameError (undefined_name : String)
  | indexError
  | osError (path : String)
deriving DecidableEq

/-- Formatting and cleaning work performed by a run, recorded as a trace:
format_file, format_directory and cleanup_directory are modelled as
atomic actions since no claim concerns their internals. -/
inductive FormatAction where
  | formatFile (path : String)
  | formatDir (src_path entry : String)
  | cleanDir (src_path entry : String)
deriving DecidableEq

/-- Path join as used by os.path.join on relative second components. -/
def pjoin (a b : String) : String := a ++ "/" ++ b

/-- Embedding of the standard-location search inside find_clang_format
(src/scripts/format_code.py lines 193-215): the two fixed paths first,
then the newest LLVM version under the Homebrew Cellar, chosen by the
Python string comparison loop over llvm_versions. Indexing
llvm_versions[0] raises an IndexError when the Cellar listing is empty. -/
def searchStandardLocations (fs : FileSystem) : Except PyError (Option String) :=
  if fs.isfile "/usr/bin/clang-format" then
    Except.ok (some "/usr/bin/clang-format")
  else if fs.isfile "/usr/local/bin/clang-format" then
    Except.ok (some "/usr/local/bin/clang-format")
  else if fs.isdir "/usr/local/Cellar/llvm" then
    match fs.listdir "/usr/local/Cellar/llvm" with
    | [] => Except.error PyError.indexError
    | v :: vs =>
        let llvm_version :=
          vs.foldl (fun best ver => if best < ver then ver else best) v
        Except.ok (some (pjoin (pjoin (pjoin "/usr/local/Cellar/llvm"
          llvm_version) "bin") "clang-format"))
  else
    Except.ok none

/-- Embedding of find_clang_format (src/scripts/format_code.py lines
160-229). When the llvm_bin argument is truthy the command path is formed
from it. Otherwise, when LLVM_HOME is set and truthy: if it is an existing
directory, the source stores the command into the local variable
clang_format_cmd inside the verbose-only status block, so command_path is
never assigned and the final check fails; if it is not a directory, the
run fails immediately. When LLVM_HOME is unset or empty the standard
locations are searched. Finally a command path of None, or one that is
not an existing file, fails. The verbose flag only affects status
messages and the dead local assignment, never the result, so it is not a
parameter here. -/
def find_clang_format (fs : FileSystem) (env : EnvMap) (llvm_bin : Option String) :
    Except PyError String :=
  let finish : Option String → Except PyError String := fun command_path =>
    match command_path with
    | none => Except.error (PyError.failure "Could not find the clang-format command!")
    | some p =>
        if fs.isfile p then Except.ok p
        else Except.error (PyError.failure
          ("Could not find the clang-format command!: " ++ p))
  if truthy llvm_bin then
    finish (some (llvm_bin.getD "" ++ "/clang-format"))
  else
    match env.get "LLVM_HOME" with
    | some llvm_home =>
        if llvm_home == "" then
          match searchStandardLocations fs with
          | Except.error e => Except.error e
          | Except.ok cp => finish cp
        else if fs.isdir llvm_home then
          finish none
        else
          Except.error (PyError.failure ("LLVM_HOME not found: " ++ llvm_home))
    | none =>
        match searchStandardLocations fs with
        | Except.error e => Except.error e
        | Except.ok cp => finish cp

/-- Embedding of resolving the TrickHLA home directory in main
(src/scripts/format_code.py lines 43-51). The thla_home branch reads
ars.thla_home, and the name ars is bound nowhere, so Python raises a
NameError whenever args.thla_home is truthy; otherwise the TRICKHLA_HOME
and TRICK_HLA_HOME environment variables are consulted in turn, and an
unset pair is a failure. -/
def resolveTrickhlaHome (args : FormatArgs) (env : EnvMap) :
    Except PyError String :=
  if truthy args.thla_home then
    Except.error (PyError.nameError "ars")
  else
    match env.get "TRICKHLA_HOME" with
    | some h => Except.ok h
    | none =>
        match env.get "TRICK_HLA_HOME" with
        | some h => Except.ok h
        | none => Except.error (PyError.failure "TRICKHLA_HOME not set!")

/-- Loop of main over the four top-level source paths
(src/scripts/format_code.py lines 118-138): move into each path, list it,
skip plain files, and clean or format every remaining entry. An os.chdir
into a missing source path raises an OSError. -/
def processSrcPaths (fs : FileSystem) (clean : Bool) :
    List String → List FormatAction → List FormatAction × Except PyError Unit
  | [], acc => (acc, Except.ok ())
  | src_path :: rest, acc =>
      if fs.isdir src_path then
        let entries := (fs.listdir src_path).filter
          fun e => !fs.isfile (pjoin src_path e)
        let acts := entries.map fun e =>
          if clean then FormatAction.cleanDir src_path e
          else FormatAction.formatDir src_path e
        processSrcPaths fs clean rest (acc ++ acts)
      else
        (acc, Except.error (PyError.osError src_path))

/-- Embedding of main (src/scripts/format_code.py lines 23-149): resolve
the home directory, check it and the four required subdirectories, find
the formatter, reject the incompatible flag pairs in_place with clean and
file with clean, ask for interactive confirmation before in-place
formatting unless test is set (sys.exit with no work when the reply is
not y), then either format the single named file or walk the four source
paths. The reply argument embeds the raw_input answer; the returned trace
lists the formatting or cleaning work performed before termination. -/
def formatCodeMain (args : FormatArgs) (fs : FileSystem) (env : EnvMap)
    (reply : String) : List FormatAction × Except PyError Unit :=
  match resolveTrickhlaHome args env with
  | Except.error e => ([], Except.error e)
  | Except.ok trickhla_home =>
    if !fs.isdir trickhla_home then
      ([], Except.error (PyError.failure "TrickHLA Home directory not found!"))
    else if !fs.isdir (pjoin trickhla_home "include") then
      ([], Except.error (PyError.failure "Could not find the include directory!"))
    else if !fs.isdir (pjoin trickhla_home "source") then
      ([], Except.error (PyError.failure "Could not find the source directory!"))
    else if !fs.isdir (pjoin trickhla_home "models") then
      ([], Except.error (PyError.failure "Could not find the models directory!"))
    else if !fs.isdir (pjoin trickhla_home "scripts") then
      ([], Except.error (PyError.failure "Could not find the scripts directory!"))
    else
      match find_clang_format fs env args.llvm_bin with
      | Except.error e => ([], Except.error e)
      | Except.ok _ =>
        if args.in_place && args.clean then
          ([], Except.error (PyError.failure
            "The in_place and clean options are incompatible!"))
        else if truthy args.file && args.clean then
          ([], Except.error (PyError.failure
            "The file and clean options are incompatible!"))
        else if args.in_place && !args.test && !(reply == "y") then
          ([], Except.ok ())
        else if truthy args.file then
          ([FormatAction.formatFile (args.file.getD "")], Except.ok ())
        else
          processSrcPaths fs args.clean
            [pjoin trickhla_home "include", pjoin trickhla_home "source",
             pjoin trickhla_home "models/simconfig",
             pjoin trickhla_home "models/sine"] []

/-- Filesystem in which LLVM_HOME points at an existing directory that
contains a clang-format binary, and nothing else exists. -/
def llvmHomeFs : FileSystem :=
  ⟨fun p => p == "/opt/llvm", fun p => p == "/opt/llvm/clang-format", fun _ => []⟩

/-- Environment in which only LLVM_HOME is set, to /opt/llvm. -/
def llvmHomeEnv : EnvMap :=
  ⟨fun k => if k == "LLVM_HOME" then some "/opt/llvm" else none⟩

/-- C8: evaluation of find_clang_format at the failing input. LLVM_HOME
names an existing directory that contains the clang-format binary, yet
the search terminates with the could-not-find failure instead of
returning the usable command path /opt/llvm/clang-format, because the
LLVM_HOME branch of the source assigns the dead local clang_format_cmd
inside the verbose-only block and never sets command_path. -/
theorem find_clang_format_llvm_home_never_yields_path :
    llvmHomeEnv.get "LLVM_HOME" = some "/opt/llvm" ∧
    llvmHomeFs.isdir "/opt/llvm" = true ∧
    llvmHomeFs.isfile "/opt/llvm/clang-format" = true ∧
    find_clang_format llvmHomeFs llvmHomeEnv none
      = Except.error (PyError.failure "Could not find the clang-format command!") :=
  ⟨rfl, rfl, rfl, rfl⟩

/-- The required-directory checks of main: the home directory itself and
its include, source, models and scripts subdirectories. -/
def requiredDirsPresent (fs : FileSystem) (home : String) : Bool :=
  fs.isdir home && fs.isdir (pjoin home "include")
    && fs.isdir (pjoin home "source") && fs.isdir (pjoin home "models")
    && fs.isdir (pjoin home "scripts")

/-- The two incompatible flag combinations rejected by main: in_place
with clean, and file with clean. -/
def incompatibleFlags (args : FormatArgs) : Bool :=
  (args.in_place && args.clean) || (truthy args.file && args.clean)

/-- C9: every invocation with an incompatible flag combination, or for
which the resolved home directory fails a required-directory check,
terminates with an error before any formatting or cleaning action is
performed: the action trace is empty and the run ends in an error. -/
theorem formatCodeMain_failfast (args : FormatArgs) (fs : FileSystem)
    (env : EnvMap) (reply : String)
    (h : incompatibleFlags args = true ∨
      ∀ home, resolveTrickhlaHome args env = Except.ok home →
        requiredDirsPresent fs home = false) :
    (formatCodeMain args fs env reply).1 = [] ∧
    ∃ e, (formatCodeMain args fs env reply).2 = Except.error e := by
  unfold formatCodeMain
  cases hres : resolveTrickhlaHome args env with
  | error e => exact ⟨rfl, e, rfl⟩
  | ok home =>
    cases h1 : fs.isdir home with
    | false => simp [h1]
    | true =>
      cases h2 : fs.isdir (pjoin home "include") with
      | false => simp [h1, h2]
      | true =>
        cases h3 : fs.isdir (pjoin home "source") with
        | false => simp [h1, h2, h3]
        | true =>
          cases h4 : fs.isdir (pjoin home "models") with
          | false => simp [h1, h2, h3, h4]
          | true =>
            cases h5 : fs.isdir (pjoin home "scripts") with
            | false => simp [h1, h2, h3, h4, h5]
            | true =>
              have hflag : incompatibleFlags args = true := by
                rcases h with hflag | hdir
                · exact hflag
                · exact absurd (hdir home hres)
                    (by simp [requiredDirsPresent, h1, h2, h3, h4, h5])
              cases hf : find_clang_format fs env args.llvm_bin with
              | error e => simp [h1, h2, h3, h4, h5, hf]
              | ok cmd =>
                unfold incompatibleFlags at hflag
                cases hip : (args.in_place && args.clean) with
                | true => simp [h1, h2, h3, h4, h5, hf, hip]
                | false =>
                  have hfc : (truthy args.file && args.clean) = true := by
                    rw [hip] at hflag
                    simpa using hflag
                  simp [h1, h2, h3, h4, h5, hf, hip, hfc]

/-- Filesystem in which every directory and file test succeeds and every
listing is empty. -/
def allTrueFs : FileSystem := ⟨fun _ => true, fun _ => true, fun _ => []⟩

/-- Environment in which only TRICKHLA_HOME is set, to /thla. -/
def thlaEnv : EnvMap :=
  ⟨fun k => if k == "TRICKHLA_HOME" then some "/thla" else none⟩

/-- Arguments combining the clean flag with the in_place flag. -/
def clashArgs : FormatArgs := ⟨true, none, true, none, none, false, false⟩

/-- C9 witness: the fail-fast theorem instantiated on the in_place plus
clean flag clash over a fully present filesystem. -/
theorem formatCodeMain_failfast_witness :
    (formatCodeMain clashArgs allTrueFs thlaEnv "y").1 = [] ∧
    ∃ e, (formatCodeMain clashArgs allTrueFs thlaEnv "y").2 = Except.error e :=
  formatCodeMain_failfast clashArgs allTrueFs thlaEnv "y" (Or.inl rfl)

/-- Arguments supplying the thla_home flag with an empty value, as
argparse produces for an empty-string option value. -/
def emptyHomeArgs : FormatArgs := ⟨false, none, false, none, some "", false, false⟩

/-- C10 counterexample: an invocation that supplies the thla_home flag
with the empty string does not fail with an undefined-name error: the
Python truthiness test on args.thla_home is false, the branch reading
ars.thla_home is skipped, and the run completes normally from the
TRICKHLA_HOME environment variable. -/
theorem formatCode_thla_home_empty_value_runs :
    emptyHomeArgs.thla_home = some "" ∧
    (formatCodeMain emptyHomeArgs allTrueFs thlaEnv "y").2 = Except.ok () :=
  ⟨rfl, rfl⟩

/-- C10 (amended): every invocation that supplies the thla_home flag with
a non-empty value fails with a NameError on the undefined name ars before
any directory check or formatting occurs, for every filesystem and
environment, with an empty action trace. -/
theorem formatCodeMain_thla_home_nameError (args : FormatArgs) (fs : FileSystem)
    (env : EnvMap) (reply s : String) (hsome : args.thla_home = some s)
    (hne : s ≠ "") :
    formatCodeMain args fs env reply
      = ([], Except.error (PyError.nameError "ars")) := by
  have h : resolveTrickhlaHome args env
      = Except.error (PyError.nameError "ars") := by
    unfold resolveTrickhlaHome
    rw [hsome]
    simp [truthy, hne]
  unfold formatCodeMain
  rw [h]

/-- Arguments supplying the thla_home flag with a non-empty path. -/
def pathHomeArgs : FormatArgs :=
  ⟨false, none, false, none, some "/my/trickhla", false, false⟩

/-- C10 witness: the NameError theorem instantiated on a concrete
non-empty thla_home value over a fully present filesystem. -/
theorem formatCodeMain_thla_home_nameError_witness :
    formatCodeMain pathHomeArgs allTrueFs thlaEnv "y"
      = ([], Except.error (PyError.nameError "ars")) :=
  formatCodeMain_thla_home_nameError pathHomeArgs allTrueFs thlaEnv "y"
    "/my/trickhla" rfl (by decide)
